import Mathlib

/-!
Shallow embedding of the ViTables launcher (`vitables/start.py`) and the
logging console widget (`vitables/logger.py`).

Pure logic is translated to Lean functions; effectful code (logging
handlers, stderr output, closing file handles, the default excepthook)
is modelled by explicit state records and event traces.  Python machine
behaviour that the code relies on is embedded explicitly: Python string
comparison is lexicographic on code points (`pyStrLt`), Python string
truthiness is non-emptiness.
-/

namespace ViTables

/-! ## Python string comparison

`tables.__version__ < "3.0"` and `tables.__version__ >= "3.1.0"` in the
source use the Python lexicographic string comparison over code points. -/

/-- Lexicographic comparison of char lists by code point, as Python
compares strings. -/
def pyCharsLt : List Char → List Char → Bool
  | [], [] => false
  | [], _ :: _ => true
  | _ :: _, [] => false
  | a :: as, b :: bs => if a = b then pyCharsLt as bs else decide (a.toNat < b.toNat)

/-- Python `a < b` on strings. -/
def pyStrLt (a b : String) : Bool :=
  pyCharsLt a.data b.data

/-- Python `a >= b` on strings (negation of `<` in a total order). -/
def pyStrGe (a b : String) : Bool :=
  !pyStrLt a b

/-- Python `s.startswith(pre)`: a code-point prefix test. -/
def pyStartsWith (s pre : String) : Bool :=
  pre.data.isPrefixOf s.data

/-! ## Logging severity constants (Python `logging` module). -/

namespace logging

def ERROR : Nat := 40

def WARNING : Nat := 30

def INFO : Nat := 20

def DEBUG : Nat := 10

end logging

/-- `start.py` line 37: map number of `-v` flags on the command line to a
logging error level. -/
def _VERBOSITY_LOGLEVEL_DICT (v : Nat) : Option Nat :=
  if v = 0 then some logging.ERROR
  else if v = 1 then some logging.WARNING
  else if v = 2 then some logging.INFO
  else if v = 3 then some logging.DEBUG
  else none

/-- `start.py` line 40: default log format used by logger. -/
def _FILE_LOG_FORMAT : String :=
  "%(asctime)s - %(name)s - %(levelname)s - %(message)s"

/-! ## Command-line parsing (`_parse_command_line`)

The argparse surface is embedded as a list of recognised command-line
items applied left to right over the declared defaults
(`parser.set_defaults` with mode "a", dblist the empty string, h5file the empty list; `--log-file`
defaults to `None`, `--verbose` is a count defaulting to 0).  A `-m`
value other than "r" or "a" makes argparse reject the command
line, modelled by `none`. -/

/-- The argument record returned by `parser.parse_args()`. -/
structure Args where
  mode : String
  dblist : String
  log_file : Option String
  verbose : Nat
  h5file : List String
deriving Repr, DecidableEq

/-- One recognised command-line item. -/
inductive CmdOpt
  | mode (v : String)
  | dblist (v : String)
  | logFile (v : String)
  | verbose
  | positional (p : String)
deriving Repr, DecidableEq

/-- Defaults set by `parser.set_defaults` and the option declarations. -/
def defaultArgs : Args :=
  { mode := "a", dblist := "", log_file := none, verbose := 0, h5file := [] }

/-- Effect of one command-line item on the accumulated argument record.
Later occurrences of a store option overwrite earlier ones; `-v` counts;
positionals accumulate; an invalid `-m` value is rejected. -/
def applyOpt (a : Args) : CmdOpt → Option Args
  | .mode v => if v = "r" ∨ v = "a" then some { a with mode := v } else none
  | .dblist v => some { a with dblist := v }
  | .logFile v => some { a with log_file := some v }
  | .verbose => some { a with verbose := a.verbose + 1 }
  | .positional p => some { a with h5file := a.h5file ++ [p] }

/-- Fold the command line over an argument record. -/
def parseArgs : List CmdOpt → Args → Option Args
  | [], a => some a
  | o :: os, a => (applyOpt a o).bind (parseArgs os)

/-- `start.py` lines 97-128, `_parse_command_line`: parse the command
line, then, if `args.dblist` is truthy (a non-empty string), clear the
mode and the positional file list. -/
def _parse_command_line (opts : List CmdOpt) : Option Args :=
  (parseArgs opts defaultArgs).map fun args =>
    if args.dblist ≠ "" then { args with mode := "", h5file := [] } else args

/-- The effective `--dblist` value of a command line: the last one given,
defaulting to the empty string. -/
def finalDblist (opts : List CmdOpt) : String :=
  opts.foldl (fun acc o => match o with | .dblist v => v | _ => acc) ""

/-- The positional file paths of a command line, in order. -/
def positionals (opts : List CmdOpt) : List String :=
  opts.filterMap fun o => match o with | .positional p => some p | _ => none

/-! ## Version check (`_check_versions`) -/

/-- Outcome of `_check_versions`: either it returns normally or it calls
`sys.exit` with a fatal message. -/
inductive CheckResult
  | ok
  | exit (msg : String)
deriving Repr, DecidableEq

/-- `start.py` lines 57-62, `_check_versions`: exits fatally when
`tables.__version__ < "3.0"` under Python string comparison. -/
def _check_versions (tablesVersion : String) : CheckResult :=
  if pyStrLt tablesVersion "3.0" then
    CheckResult.exit ("FATAL: PyTables version 3.0 or above is required, installed version is "
      ++ tablesVersion)
  else CheckResult.ok

/-- Split a char list on dots. -/
def splitDots : List Char → List (List Char)
  | [] => [[]]
  | c :: cs =>
    if c = '.' then [] :: splitDots cs
    else
      match splitDots cs with
      | [] => [[c]]
      | g :: gs => (c :: g) :: gs

/-- Read a decimal digit group as a number. -/
def digitsToNat (ds : List Char) : Nat :=
  ds.foldl (fun acc c => acc * 10 + (c.toNat - 48)) 0

/-- The numeric components of a dotted version string. -/
def versionNums (s : String) : List Nat :=
  (splitDots s.data).map digitsToNat

/-- Modelled from the spec: "the process aborts with a message if the
version of the required data-access library is below a minimum threshold",
the threshold being version 3.0.  A dotted version is numerically below
3.0 exactly when its major component is below 3 (3.0 has no further
components, so any version with major at least 3 is at or above it). -/
def specVersionBelow30 (s : String) : Bool :=
  decide ((versionNums s).headD 0 < 3)

/-! ## Logger setup (`_setup_logger`)

The Python `logging` root logger is modelled as a record of installed
handlers, the configured level, and the messages logged through
`logger.error`.  Building `logging.FileHandler(path)` touches the file
system and may raise; it is a parameter returning `Except`, as is the
environment-dependent `os.path.expandvars(os.path.expanduser(...))`
expansion. -/

/-- What a handler writes to. -/
inductive HandlerTarget
  | stderrStream
  | file (path : String)
deriving Repr, DecidableEq

/-- A logging handler: its target and the format set on it. -/
structure Handler where
  target : HandlerTarget
  formatter : Option String
deriving Repr, DecidableEq

/-- The mutable state of the root logger. -/
structure LoggerState where
  handlers : List Handler
  level : Nat
  errors : List String
deriving Repr, DecidableEq

/-- `start.py` lines 131-159, `_setup_logger`: install a temporary
stderr handler, try to add a file handler when `args.log_file` is given
(catching any exception and logging it via `logger.error`), then set the
level from the verbosity table, logging an error and falling back to
ERROR for a verbosity outside the table.  Returns the logger state and
the temporary stderr handler. -/
def _setup_logger (st0 : LoggerState) (expand : String → String)
    (mkFileHandler : String → Except String Handler) (args : Args) :
    LoggerState × Handler :=
  let file_formatter := _FILE_LOG_FORMAT
  let temporary_stderr_handler : Handler :=
    { target := HandlerTarget.stderrStream, formatter := some file_formatter }
  let st1 : LoggerState := { st0 with handlers := st0.handlers ++ [temporary_stderr_handler] }
  let st2 : LoggerState :=
    match args.log_file with
    | none => st1
    | some lf =>
      match mkFileHandler (expand lf) with
      | Except.ok fh =>
        { st1 with handlers := st1.handlers ++ [{ fh with formatter := some file_formatter }] }
      | Except.error e =>
        { st1 with errors := st1.errors ++ ["Failed to open log file", e] }
  let st3 : LoggerState :=
    match _VERBOSITY_LOGLEVEL_DICT args.verbose with
    | some lvl => { st2 with level := lvl }
    | none =>
      { st2 with level := logging.ERROR,
                 errors := st2.errors ++ ["Invalid verbosity level: " ++ toString args.verbose
                   ++ ", error level set to ERROR"] }
  (st3, temporary_stderr_handler)

/-! ## Uncaught-exception hook (`_uncaught_exception_hook`) -/

/-- A Python traceback, abstracted as the list of formatted frame strings
that `traceback.format_tb` returns for it. -/
structure Traceback where
  frames : List String
deriving Repr, DecidableEq

/-- `start.py` lines 48-51, `_uncaught_exception_hook`: log the joined
formatted traceback concatenated with `str(value)` through the uncaught
exception logger, then invoke the default handler `sys.__excepthook__`
on the unchanged three arguments.  The log is an explicit message list;
the default handler is a parameter applied to the forwarded arguments. -/
def _uncaught_exception_hook {α : Type} (defaultHook : String → String → Traceback → α)
    (uncaughtLog : List String) (type_ value : String) (tb : Traceback) :
    List String × α :=
  let uncaughtLog := uncaughtLog ++ [String.join tb.frames ++ value]
  (uncaughtLog, defaultHook type_ value tb)

/-! ## Exit-time cleanup (`_close_open_files`) -/

/-- A PyTables open-file handle: an object identity and its filename. -/
structure FileH where
  oid : Nat
  filename : String
deriving Repr, DecidableEq

/-- The PyTables global registry `tables.file._open_files`, in its two
historical layouts: PyTables 3.1.0 and newer expose a `handlers`
container; older versions are dict-like, iterated via `keys()` and
item lookup (each key maps to its handle, so the handles gathered are
the values of the dict in key order). -/
inductive OpenFiles
  | newStyle (handlers : List FileH)
  | oldStyle (items : List (String × FileH))
deriving Repr, DecidableEq

/-- `len(open_files)` on either layout. -/
def OpenFiles.len : OpenFiles → Nat
  | .newStyle hs => hs.length
  | .oldStyle its => its.length

/-- The handles the code gathers for the layout selected by the PyTables
version: `list(open_files.handlers)` when the version is at least
`"3.1.0"` (Python string comparison), else the values looked up from
`open_files.keys()`.  `none` models the attribute error raised when the
registry does not have the layout the version branch expects. -/
def registryHandlers (tablesVersion : String) : OpenFiles → Option (List FileH)
  | .newStyle hs => if pyStrGe tablesVersion "3.1.0" then some hs else none
  | .oldStyle its =>
      if pyStrGe tablesVersion "3.1.0" then none else some (its.map Prod.snd)

/-- An observable effect of `_close_open_files`: a write to stderr or a
`close()` call on a handle. -/
inductive CloseEvent
  | stderrWrite (s : String)
  | close (h : FileH)
deriving Repr, DecidableEq

/-- `start.py` lines 162-200, `_close_open_files`: emit the trace of
stderr writes and `close()` calls the function performs on the given
registry, for the given PyTables version and `verbose` flag. -/
def _close_open_files (tablesVersion : String) (open_files : OpenFiles)
    (verbose : Bool) : Option (List CloseEvent) :=
  (registryHandlers tablesVersion open_files).map fun handlers =>
    let are_open_files := decide (open_files.len > 0)
    (if verbose && are_open_files then
       [CloseEvent.stderrWrite "Closing remaining open files:"] else [])
    ++ (handlers.map fun fileh =>
         (if verbose then [CloseEvent.stderrWrite (fileh.filename ++ "...")] else [])
         ++ [CloseEvent.close fileh]
         ++ (if verbose then [CloseEvent.stderrWrite "done"] else [])).flatten
    ++ (if verbose && are_open_files then [CloseEvent.stderrWrite "\n"] else [])

/-! ## The logging console widget (`vitables/logger.py`)

The `QTextEdit` surface that `Logger.write` touches is modelled as the
appended document blocks (each with the text color it was rendered in),
the cursor position, and the current text color. -/

/-- An RGB color, as `QtGui.QColor`. -/
structure Color where
  r : Nat
  g : Nat
  b : Nat
deriving Repr, DecidableEq

/-- The color named "red", as `QColor` resolves it. -/
def redColor : Color := { r := 255, g := 0, b := 0 }

/-- `QColor(243, 137, 8)`, the warning orange. -/
def warningColor : Color := { r := 243, g := 137, b := 8 }

/-- The widget state that `Logger.write` reads and mutates. -/
structure LoggerWidget where
  document : List (String × Color)
  cursor : Nat
  textColor : Color
deriving Repr, DecidableEq

/-- Total length of the document text, the end position the cursor moves
to after an append. -/
def docLen (doc : List (String × Color)) : Nat :=
  (doc.map fun blk => blk.fst.length).foldr (· + ·) 0

/-- `logger.py` lines 104-132, `Logger.write`: remember the current text
color; return untouched on a bare "\n" or "\r\n"; switch the color
to red for an "\nError: " prefix or to orange for a "\nWarning: "
prefix; append the text (rendered in the now-current color); move the
cursor to the end; restore the remembered color. -/
def Logger.write (lg : LoggerWidget) (text : String) : LoggerWidget :=
  let current_color := lg.textColor
  if text = "\n" ∨ text = "\r\n" then lg
  else
    let lg :=
      if pyStartsWith text "\nError: " then { lg with textColor := redColor }
      else if pyStartsWith text "\nWarning: " then { lg with textColor := warningColor }
      else lg
    let lg := { lg with document := lg.document ++ [(text, lg.textColor)] }
    let lg := { lg with cursor := docLen lg.document }
    { lg with textColor := current_color }

/-! ## Command-line parsing theorems -/

/-- Parsing threads the dblist field as a last-wins fold. -/
lemma parseArgs_dblist (opts : List CmdOpt) (a args : Args)
    (hp : parseArgs opts a = some args) :
    args.dblist = opts.foldl (fun acc o => match o with | .dblist v => v | _ => acc) a.dblist := by
  induction opts generalizing a with
  | nil =>
    simp [parseArgs] at hp
    subst hp
    rfl
  | cons o os ih =>
    cases o with
    | mode v =>
      by_cases hv : v = "r" ∨ v = "a"
      · simp [parseArgs, applyOpt, hv] at hp
        simpa [List.foldl] using ih _ hp
      · simp [parseArgs, applyOpt, hv] at hp
    | dblist v =>
      simp [parseArgs, applyOpt] at hp
      simpa [List.foldl] using ih _ hp
    | logFile v =>
      simp [parseArgs, applyOpt] at hp
      simpa [List.foldl] using ih _ hp
    | verbose =>
      simp [parseArgs, applyOpt] at hp
      simpa [List.foldl] using ih _ hp
    | positional p =>
      simp [parseArgs, applyOpt] at hp
      simpa [List.foldl] using ih _ hp

/-- A command line free of mode and dblist items parses successfully,
keeps the mode and dblist of the starting record, and appends exactly
the positional paths. -/
lemma parseArgs_no_mode_dblist (opts : List CmdOpt) (a : Args)
    (hm : ∀ v, CmdOpt.mode v ∉ opts) (hd : ∀ v, CmdOpt.dblist v ∉ opts) :
    ∃ args, parseArgs opts a = some args ∧ args.mode = a.mode ∧
      args.dblist = a.dblist ∧ args.h5file = a.h5file ++ positionals opts := by
  induction opts generalizing a with
  | nil => exact ⟨a, rfl, rfl, rfl, by simp [positionals]⟩
  | cons o os ih =>
    have hm' : ∀ v, CmdOpt.mode v ∉ os := fun v hv => hm v (List.mem_cons_of_mem _ hv)
    have hd' : ∀ v, CmdOpt.dblist v ∉ os := fun v hv => hd v (List.mem_cons_of_mem _ hv)
    cases o with
    | mode v => exact absurd (List.mem_cons_self _ _) (hm v)
    | dblist v => exact absurd (List.mem_cons_self _ _) (hd v)
    | logFile v =>
      obtain ⟨args, hp, h1, h2, h3⟩ := ih { a with log_file := some v } hm' hd'
      exact ⟨args, by simpa [parseArgs, applyOpt] using hp, h1, h2,
        by simpa [positionals] using h3⟩
    | verbose =>
      obtain ⟨args, hp, h1, h2, h3⟩ := ih { a with verbose := a.verbose + 1 } hm' hd'
      exact ⟨args, by simpa [parseArgs, applyOpt] using hp, h1, h2,
        by simpa [positionals] using h3⟩
    | positional p =>
      obtain ⟨args, hp, h1, h2, h3⟩ := ih { a with h5file := a.h5file ++ [p] } hm' hd'
      exact ⟨args, by simpa [parseArgs, applyOpt] using hp, h1, h2,
        by simpa [positionals] using h3⟩

/-- C1: for every command line whose effective dblist value is
non-empty, `_parse_command_line` returns a record whose mode is the
empty string and whose positional h5file list is empty, regardless of
any mode option or positional paths also supplied. -/
theorem dblist_clears_mode_and_h5file (opts : List CmdOpt) (args : Args)
    (hp : _parse_command_line opts = some args) (hne : finalDblist opts ≠ "") :
    args.mode = "" ∧ args.h5file = [] := by
  unfold _parse_command_line at hp
  cases hpa : parseArgs opts defaultArgs with
  | none => rw [hpa] at hp; exact absurd hp (by simp)
  | some a0 =>
    rw [hpa] at hp
    have hdb : a0.dblist = finalDblist opts := by
      simpa [defaultArgs, finalDblist] using parseArgs_dblist opts defaultArgs a0 hpa
    rw [Option.map_some', Option.some.injEq] at hp
    rw [if_pos (show a0.dblist ≠ "" by rw [hdb]; exact hne)] at hp
    subst hp
    exact ⟨rfl, rfl⟩

/-- C1 witness at the command line mode "r", dblist "list.txt",
positional "a.h5". -/
theorem dblist_clears_mode_and_h5file_witness :
    (Args.mk "" "list.txt" none 0 []).mode = "" ∧
      (Args.mk "" "list.txt" none 0 []).h5file = [] :=
  dblist_clears_mode_and_h5file
    [CmdOpt.mode "r", CmdOpt.dblist "list.txt", CmdOpt.positional "a.h5"]
    (Args.mk "" "list.txt" none 0 []) (by decide) (by decide)

/-- C10: for every command line supplying neither a dblist nor a mode
option, `_parse_command_line` succeeds with the default mode "a", the
empty dblist, and the positional h5file paths as given. -/
theorem no_dblist_no_mode_defaults (opts : List CmdOpt)
    (hm : ∀ v, CmdOpt.mode v ∉ opts) (hd : ∀ v, CmdOpt.dblist v ∉ opts) :
    ∃ args, _parse_command_line opts = some args ∧ args.mode = "a" ∧
      args.dblist = "" ∧ args.h5file = positionals opts := by
  obtain ⟨a0, hp, h1, h2, h3⟩ := parseArgs_no_mode_dblist opts defaultArgs hm hd
  refine ⟨a0, ?_, ?_, ?_, ?_⟩
  · unfold _parse_command_line
    rw [hp, Option.map_some', if_neg (by simp [h2, defaultArgs])]
  · simpa [defaultArgs] using h1
  · simpa [defaultArgs] using h2
  · simpa [defaultArgs] using h3

/-- C10 witness at the command line with one `-v` and one positional. -/
theorem no_dblist_no_mode_defaults_witness :
    ∃ args, _parse_command_line [CmdOpt.verbose, CmdOpt.positional "x.h5"] = some args ∧
      args.mode = "a" ∧ args.dblist = "" ∧
      args.h5file = positionals [CmdOpt.verbose, CmdOpt.positional "x.h5"] :=
  no_dblist_no_mode_defaults [CmdOpt.verbose, CmdOpt.positional "x.h5"]
    (by intro v hv; simp at hv) (by intro v hv; simp at hv)

/-! ## Logger setup theorems -/

/-- The level `_setup_logger` configures: the table entry for the
verbosity count, with ERROR as the out-of-table fallback. -/
lemma setup_logger_level (st0 : LoggerState) (expand : String → String)
    (mkFileHandler : String → Except String Handler) (args : Args) :
    (_setup_logger st0 expand mkFileHandler args).1.level =
      (_VERBOSITY_LOGLEVEL_DICT args.verbose).getD logging.ERROR := by
  simp only [_setup_logger]
  cases h : _VERBOSITY_LOGLEVEL_DICT args.verbose <;> simp [h]

/-- Verbosity counts above three are outside the table. -/
lemma verbosity_dict_none (v : Nat) (hv : 3 < v) :
    _VERBOSITY_LOGLEVEL_DICT v = none := by
  have h0 : v ≠ 0 := by omega
  have h1 : v ≠ 1 := by omega
  have h2 : v ≠ 2 := by omega
  have h3 : v ≠ 3 := by omega
  simp [_VERBOSITY_LOGLEVEL_DICT, h0, h1, h2, h3]

/-- C2: `_setup_logger` sets the root logger level per the fixed table
ERROR, WARNING, INFO, DEBUG for verbosity counts 0 to 3, and for any
count outside the table sets ERROR and logs an error message about the
invalid verbosity level. -/
theorem setup_logger_verbosity_table (st0 : LoggerState) (expand : String → String)
    (mkFileHandler : String → Except String Handler) (args : Args) :
    (args.verbose = 0 →
      (_setup_logger st0 expand mkFileHandler args).1.level = logging.ERROR) ∧
    (args.verbose = 1 →
      (_setup_logger st0 expand mkFileHandler args).1.level = logging.WARNING) ∧
    (args.verbose = 2 →
      (_setup_logger st0 expand mkFileHandler args).1.level = logging.INFO) ∧
    (args.verbose = 3 →
      (_setup_logger st0 expand mkFileHandler args).1.level = logging.DEBUG) ∧
    (3 < args.verbose →
      (_setup_logger st0 expand mkFileHandler args).1.level = logging.ERROR ∧
      ("Invalid verbosity level: " ++ toString args.verbose ++ ", error level set to ERROR")
        ∈ (_setup_logger st0 expand mkFileHandler args).1.errors) := by
  refine ⟨?_, ?_, ?_, ?_, ?_⟩
  · intro h
    rw [setup_logger_level, h]
    rfl
  · intro h
    rw [setup_logger_level, h]
    rfl
  · intro h
    rw [setup_logger_level, h]
    rfl
  · intro h
    rw [setup_logger_level, h]
    rfl
  · intro h
    have hnone := verbosity_dict_none args.verbose h
    refine ⟨by rw [setup_logger_level, hnone]; rfl, ?_⟩
    simp only [_setup_logger, hnone]
    cases args.log_file with
    | none => simp
    | some lf => cases mkFileHandler (expand lf) <;> simp

/-- C2 witness at verbosity count 5 with no log file. -/
theorem setup_logger_verbosity_table_witness :
    (_setup_logger (LoggerState.mk [] 30 []) id (fun _ => Except.error "e")
        (Args.mk "a" "" none 5 [])).1.level = logging.ERROR ∧
      ("Invalid verbosity level: " ++ toString (5 : Nat) ++ ", error level set to ERROR")
        ∈ (_setup_logger (LoggerState.mk [] 30 []) id (fun _ => Except.error "e")
            (Args.mk "a" "" none 5 [])).1.errors :=
  (setup_logger_verbosity_table (LoggerState.mk [] 30 []) id (fun _ => Except.error "e")
    (Args.mk "a" "" none 5 [])).2.2.2.2 (by decide)

/-- C4: when a log file is requested and constructing its file handler
raises, `_setup_logger` catches the exception, logs the failure and the
exception through the root logger, and still returns normally with the
handler list extended by exactly the temporary stderr handler it
returns and with the level set from the verbosity table. -/
theorem setup_logger_file_handler_failure (st0 : LoggerState) (expand : String → String)
    (mkFileHandler : String → Except String Handler) (args : Args) (p e : String)
    (hlf : args.log_file = some p) (hmk : mkFileHandler (expand p) = Except.error e) :
    (_setup_logger st0 expand mkFileHandler args).1.handlers =
      st0.handlers ++ [(_setup_logger st0 expand mkFileHandler args).2] ∧
    "Failed to open log file" ∈ (_setup_logger st0 expand mkFileHandler args).1.errors ∧
    e ∈ (_setup_logger st0 expand mkFileHandler args).1.errors ∧
    (_setup_logger st0 expand mkFileHandler args).1.level =
      (_VERBOSITY_LOGLEVEL_DICT args.verbose).getD logging.ERROR := by
  refine ⟨?_, ?_, ?_, setup_logger_level st0 expand mkFileHandler args⟩
  · simp only [_setup_logger, hlf, hmk]
    cases h : _VERBOSITY_LOGLEVEL_DICT args.verbose <;> simp [h]
  · simp only [_setup_logger, hlf, hmk]
    cases h : _VERBOSITY_LOGLEVEL_DICT args.verbose <;> simp [h]
  · simp only [_setup_logger, hlf, hmk]
    cases h : _VERBOSITY_LOGLEVEL_DICT args.verbose <;> simp [h]

/-- C4 witness: log file "log.txt", handler construction fails with
"boom", verbosity 2. -/
theorem setup_logger_file_handler_failure_witness :
    (_setup_logger (LoggerState.mk [] 30 []) id (fun _ => Except.error "boom")
        (Args.mk "a" "" (some "log.txt") 2 [])).1.handlers =
      [] ++ [(_setup_logger (LoggerState.mk [] 30 []) id (fun _ => Except.error "boom")
        (Args.mk "a" "" (some "log.txt") 2 [])).2] ∧
    "Failed to open log file" ∈ (_setup_logger (LoggerState.mk [] 30 []) id
        (fun _ => Except.error "boom") (Args.mk "a" "" (some "log.txt") 2 [])).1.errors ∧
    "boom" ∈ (_setup_logger (LoggerState.mk [] 30 []) id
        (fun _ => Except.error "boom") (Args.mk "a" "" (some "log.txt") 2 [])).1.errors ∧
    (_setup_logger (LoggerState.mk [] 30 []) id (fun _ => Except.error "boom")
        (Args.mk "a" "" (some "log.txt") 2 [])).1.level =
      (_VERBOSITY_LOGLEVEL_DICT 2).getD logging.ERROR :=
  setup_logger_file_handler_failure (LoggerState.mk [] 30 []) id
    (fun _ => Except.error "boom") (Args.mk "a" "" (some "log.txt") 2 [])
    "log.txt" "boom" rfl rfl

/-! ## Version check theorem -/

/-- C3: the code compares version strings lexicographically, so at the
installed version "10.0" (numerically at or above the 3.0 threshold,
major component 10) `_check_versions` nevertheless terminates the
process with the fatal message, contradicting its own docstring intent
of accepting any version of at least 3.0. -/
theorem check_versions_string_compare_bug :
    _check_versions "10.0" =
      CheckResult.exit
        "FATAL: PyTables version 3.0 or above is required, installed version is 10.0" ∧
      specVersionBelow30 "10.0" = false ∧ versionNums "10.0" = [10, 0] := by
  refine ⟨?_, by decide, by decide⟩
  decide

/-! ## Uncaught-exception hook theorem -/

/-- C5: the hook logs exactly one new message, the joined formatted
traceback concatenated with the exception value, and hands the same
three arguments unchanged to the default handler, returning whatever
the default handler returns on them. -/
theorem uncaught_hook_logs_then_forwards {α : Type}
    (defaultHook : String → String → Traceback → α) (uncaughtLog : List String)
    (type_ value : String) (tb : Traceback) :
    (_uncaught_exception_hook defaultHook uncaughtLog type_ value tb).1 =
      uncaughtLog ++ [String.join tb.frames ++ value] ∧
    (_uncaught_exception_hook defaultHook uncaughtLog type_ value tb).2 =
      defaultHook type_ value tb :=
  ⟨rfl, rfl⟩

/-! ## Console widget theorems -/

/-- A text starting with the warning prefix cannot also start with the
error prefix: the two prefixes differ at their second character. -/
lemma warning_not_error (text : String)
    (hW : pyStartsWith text "\nWarning: " = true) :
    pyStartsWith text "\nError: " = false := by
  unfold pyStartsWith at hW ⊢
  rw [show "\nWarning: ".data = '\n' :: 'W' :: "arning: ".data from rfl] at hW
  rw [show "\nError: ".data = '\n' :: 'E' :: "rror: ".data from rfl]
  cases hd : text.data with
  | nil => rfl
  | cons a l =>
    rw [hd] at hW
    cases l with
    | nil => rw [List.isPrefixOf_cons₂, List.isPrefixOf_cons_nil, Bool.and_false]
    | cons b l2 =>
      rw [List.isPrefixOf_cons₂, List.isPrefixOf_cons₂] at hW
      simp only [Bool.and_eq_true, beq_iff_eq] at hW
      obtain ⟨h1, h2, -⟩ := hW
      subst h1
      subst h2
      rw [List.isPrefixOf_cons₂, List.isPrefixOf_cons₂]
      have hEW : ('E' == 'W') = false := by decide
      simp [hEW]

/-- C6: `Logger.write` appends an error-prefixed text in red, a
warning-prefixed text in RGB(243, 137, 8), and any other appended text
in the text color current on entry. -/
theorem write_color_rules (lg : LoggerWidget) (text : String) :
    (pyStartsWith text "\nError: " = true →
      (Logger.write lg text).document = lg.document ++ [(text, redColor)]) ∧
    (pyStartsWith text "\nWarning: " = true →
      (Logger.write lg text).document = lg.document ++ [(text, warningColor)]) ∧
    (text ≠ "\n" → text ≠ "\r\n" → pyStartsWith text "\nError: " = false →
      pyStartsWith text "\nWarning: " = false →
      (Logger.write lg text).document = lg.document ++ [(text, lg.textColor)]) := by
  refine ⟨?_, ?_, ?_⟩
  · intro hE
    have h1 : text ≠ "\n" := by rintro rfl; exact absurd hE (by decide)
    have h2 : text ≠ "\r\n" := by rintro rfl; exact absurd hE (by decide)
    simp [Logger.write, h1, h2, hE]
  · intro hW
    have h1 : text ≠ "\n" := by rintro rfl; exact absurd hW (by decide)
    have h2 : text ≠ "\r\n" := by rintro rfl; exact absurd hW (by decide)
    have hE := warning_not_error text hW
    simp [Logger.write, h1, h2, hE, hW]
  · intro h1 h2 hE hW
    simp [Logger.write, h1, h2, hE, hW]

/-- C6 witness at an error-prefixed text on an empty console. -/
theorem write_color_rules_witness :
    (Logger.write (LoggerWidget.mk [] 0 (Color.mk 0 0 0)) "\nError: x").document =
      [] ++ [("\nError: x", redColor)] :=
  (write_color_rules (LoggerWidget.mk [] 0 (Color.mk 0 0 0)) "\nError: x").1 (by decide)

/-- C8: `Logger.write` on exactly "\n" or "\r\n" is a no-op leaving the
whole widget state (document, cursor, text color) unchanged; every other
text is appended as a new document block. -/
theorem write_bare_newline_noop (lg : LoggerWidget) (text : String) :
    (text = "\n" ∨ text = "\r\n" → Logger.write lg text = lg) ∧
    (text ≠ "\n" → text ≠ "\r\n" →
      ∃ c, (Logger.write lg text).document = lg.document ++ [(text, c)]) := by
  constructor
  · intro h
    simp only [Logger.write]
    rw [if_pos h]
  · intro h1 h2
    have hcond : ¬(text = "\n" ∨ text = "\r\n") := by
      rintro (h | h)
      exacts [h1 h, h2 h]
    simp only [Logger.write]
    rw [if_neg hcond]
    by_cases hE : pyStartsWith text "\nError: "
    · exact ⟨redColor, by simp [hE]⟩
    · by_cases hW : pyStartsWith text "\nWarning: "
      · exact ⟨warningColor, by simp [hE, hW]⟩
      · exact ⟨lg.textColor, by simp [hE, hW]⟩

/-- C8 witness: a bare newline is dropped, a lone carriage return is
appended. -/
theorem write_bare_newline_noop_witness :
    Logger.write (LoggerWidget.mk [] 0 (Color.mk 0 0 0)) "\n" =
      LoggerWidget.mk [] 0 (Color.mk 0 0 0) ∧
    ∃ c, (Logger.write (LoggerWidget.mk [] 0 (Color.mk 0 0 0)) "\r").document =
      [] ++ [("\r", c)] :=
  ⟨(write_bare_newline_noop (LoggerWidget.mk [] 0 (Color.mk 0 0 0)) "\n").1 (Or.inl rfl),
   (write_bare_newline_noop (LoggerWidget.mk [] 0 (Color.mk 0 0 0)) "\r").2
     (by decide) (by decide)⟩

/-- C9: every call to `Logger.write` restores the text color it found on
entry, whatever colorizing happened for the appended text. -/
theorem write_restores_text_color (lg : LoggerWidget) (text : String) :
    (Logger.write lg text).textColor = lg.textColor := by
  simp only [Logger.write]
  split <;> rfl

/-! ## Exit-time cleanup theorem -/

/-- C7: `_close_open_files` emits a close for every handle present in
the registry under the layout the PyTables version selects, and writes
nothing to stderr when verbose is falsy. -/
theorem close_open_files_closes_all (tablesVersion : String) (open_files : OpenFiles)
    (verbose : Bool) (handlers : List FileH) (trace : List CloseEvent)
    (hreg : registryHandlers tablesVersion open_files = some handlers)
    (htr : _close_open_files tablesVersion open_files verbose = some trace) :
    (∀ h, h ∈ handlers → CloseEvent.close h ∈ trace) ∧
    (verbose = false → ∀ s, CloseEvent.stderrWrite s ∉ trace) := by
  unfold _close_open_files at htr
  rw [hreg, Option.map_some', Option.some.injEq] at htr
  subst htr
  constructor
  · intro h hh
    simp only [List.mem_append, List.mem_flatten, List.mem_map]
    exact Or.inl (Or.inr ⟨_, ⟨h, hh, rfl⟩, by simp⟩)
  · rintro rfl s
    simp [List.mem_flatten]

/-- C7 witness: PyTables 3.9.2, two open files in the new-style
registry, verbose off. -/
theorem close_open_files_closes_all_witness :
    (∀ h, h ∈ [FileH.mk 1 "a.h5", FileH.mk 2 "b.h5"] →
      CloseEvent.close h ∈
        [CloseEvent.close (FileH.mk 1 "a.h5"), CloseEvent.close (FileH.mk 2 "b.h5")]) ∧
    (false = false → ∀ s,
      CloseEvent.stderrWrite s ∉
        [CloseEvent.close (FileH.mk 1 "a.h5"), CloseEvent.close (FileH.mk 2 "b.h5")]) :=
  close_open_files_closes_all "3.9.2"
    (OpenFiles.newStyle [FileH.mk 1 "a.h5", FileH.mk 2 "b.h5"]) false
    [FileH.mk 1 "a.h5", FileH.mk 2 "b.h5"]
    [CloseEvent.close (FileH.mk 1 "a.h5"), CloseEvent.close (FileH.mk 2 "b.h5")]
    (by decide) (by decide)

end ViTables
